import Mathlib

/-!
# Verification of the parking-enforcement occupancy engine

A shallow embedding of the core logic of `car_detector.py`,
`parking_monitor.py` and `database.py`, with theorems settling the
specification's claims about it.

Modelling conventions:
* The YOLO model is an external capability: its output on a cropped
  region-of-interest image is passed in as a list of raw `Detection`
  values, exactly the data the Python code extracts from `result.boxes`.
* Confidences are rationals (the Python floats are only ever compared
  with `>=`, `>` and `max`, so exact rationals model every branch).
* Timestamps are seconds as naturals; elapsed hours are rationals.
* Filesystem and transport effects (image filenames, `os.remove`
  success, Slack delivery success) are supplied as explicit inputs.
-/

namespace PiParking

/-- One vehicle detection as built in `detect_cars_in_frame`:
`{'bbox': (x1, y1, x2, y2), 'confidence': c, 'class_id': k}`. -/
structure Detection where
  x1 : Nat
  y1 : Nat
  x2 : Nat
  y2 : Nat
  confidence : ℚ
  classId : Nat
deriving Repr, DecidableEq

/-- `self.car_classes = [2, 7, 5]` — COCO car, truck, bus. -/
def car_classes : List Nat := [2, 7, 5]

/-- `detect_cars_in_frame`: keep the detections whose class is in the
allow-list and whose confidence is `>=` the threshold, in model output
order.  `raw` is the external model's output on the given image. -/
def detect_cars_in_frame (threshold : ℚ) (raw : List Detection) : List Detection :=
  raw.filter (fun d => decide (d.classId ∈ car_classes) && decide (threshold ≤ d.confidence))

/-- Rectangle spot coordinates `(x, y, w, h)` from the configuration. -/
structure SpotCoords where
  x : Nat
  y : Nat
  w : Nat
  h : Nat
deriving Repr, DecidableEq

/-- `spot_roi = frame[y:y+h, x:x+w]; spot_roi.size == 0` for a `H×W`
frame: the clipped row or column slice is empty. -/
def roi_empty (W H : Nat) (c : SpotCoords) : Bool :=
  decide (min (c.y + c.h) H - c.y = 0) || decide (min (c.x + c.w) W - c.x = 0)

/-- Bounding-box translation from ROI-local to frame coordinates:
`detection['bbox'] = (bbox[0] + x, bbox[1] + y, bbox[2] + x, bbox[3] + y)`. -/
def shift_detection (x y : Nat) (d : Detection) : Detection :=
  { d with x1 := d.x1 + x, y1 := d.y1 + y, x2 := d.x2 + x, y2 := d.y2 + y }

/-- `detect_cars_in_spot`: empty ROI short-circuits to `[]`; otherwise
detect in the ROI and shift every bbox by the crop offset.  `raw` is the
external model's output on the cropped ROI. -/
def detect_cars_in_spot (threshold : ℚ) (W H : Nat) (raw : List Detection)
    (c : SpotCoords) : List Detection :=
  if roi_empty W H c then []
  else (detect_cars_in_frame threshold raw).map (shift_detection c.x c.y)

/-- Python's `max(detections, key=lambda x: x['confidence'])`: scan left
to right, replacing the incumbent only on a strictly larger key, so the
first maximal element wins. -/
def max_by_confidence : Detection → List Detection → Detection
  | best, [] => best
  | best, d :: ds => max_by_confidence (if best.confidence < d.confidence then d else best) ds

/-- `is_spot_occupied`: returns `(occupied, confidence, image_path)`.
`saveName` stands for the timestamped filename `save_spot_image` would
generate; the evidence path is `some saveName` exactly when the code
calls `save_spot_image`. -/
def is_spot_occupied (threshold : ℚ) (W H : Nat) (raw : List Detection)
    (c : SpotCoords) (saveName : String) : Bool × ℚ × Option String :=
  match detect_cars_in_spot threshold W H raw c with
  | [] => (false, 0, none)
  | d :: ds =>
    let best := max_by_confidence d ds
    let image_path := if threshold < best.confidence then some saveName else none
    (true, best.confidence, image_path)

theorem max_by_confidence_le (ds : List Detection) (d : Detection) :
    d.confidence ≤ (max_by_confidence d ds).confidence := by
  induction ds generalizing d with
  | nil => exact le_refl _
  | cons e es ih =>
    by_cases h : d.confidence < e.confidence
    · simpa [max_by_confidence, h] using le_of_lt (lt_of_lt_of_le h (ih e))
    · simpa [max_by_confidence, h] using ih d

theorem max_by_confidence_ge (ds : List Detection) (d : Detection) :
    ∀ e ∈ d :: ds, e.confidence ≤ (max_by_confidence d ds).confidence := by
  induction ds generalizing d with
  | nil =>
    intro e he
    rcases List.mem_singleton.mp he with rfl
    exact le_refl _
  | cons f fs ih =>
    intro e he
    simp only [max_by_confidence]
    have hf : f.confidence ≤ (if d.confidence < f.confidence then f else d).confidence := by
      by_cases h : d.confidence < f.confidence
      · rw [if_pos h]
      · rw [if_neg h]
        exact not_lt.mp h
    have hd : d.confidence ≤ (if d.confidence < f.confidence then f else d).confidence := by
      by_cases h : d.confidence < f.confidence
      · rw [if_pos h]
        exact le_of_lt h
      · rw [if_neg h]
    rcases List.mem_cons.mp he with rfl | he'
    · exact le_trans hd (max_by_confidence_le fs _)
    · rcases List.mem_cons.mp he' with rfl | he''
      · exact le_trans hf (max_by_confidence_le fs _)
      · exact ih _ e (List.mem_cons_of_mem _ he'')

theorem max_by_confidence_mem (ds : List Detection) (d : Detection) :
    max_by_confidence d ds ∈ d :: ds := by
  induction ds generalizing d with
  | nil => simp [max_by_confidence]
  | cons f fs ih =>
    simp only [max_by_confidence]
    by_cases h : d.confidence < f.confidence
    · rw [if_pos h]
      exact List.mem_cons_of_mem d (ih f)
    · rw [if_neg h]
      rcases List.mem_cons.mp (ih d) with h' | h'
      · rw [h']
        exact List.mem_cons_self d _
      · exact List.mem_cons_of_mem d (List.mem_cons_of_mem f h')

/-- First occurrence wins: searching the list for the first element with
the selected confidence finds exactly the selected element. -/
theorem max_by_confidence_first (ds : List Detection) (d : Detection) :
    (d :: ds).find? (fun e => decide (e.confidence = (max_by_confidence d ds).confidence))
      = some (max_by_confidence d ds) := by
  induction ds generalizing d with
  | nil => simp [max_by_confidence, List.find?]
  | cons f fs ih =>
    by_cases h : d.confidence < f.confidence
    · have key : max_by_confidence d (f :: fs) = max_by_confidence f fs := by
        simp [max_by_confidence, h]
      rw [key]
      have hlt : d.confidence < (max_by_confidence f fs).confidence :=
        lt_of_lt_of_le h (max_by_confidence_le fs f)
      rw [List.find?_cons_of_neg _ (by simpa using ne_of_lt hlt)]
      exact ih f
    · have key : max_by_confidence d (f :: fs) = max_by_confidence d fs := by
        simp [max_by_confidence, h]
      rw [key]
      by_cases hd : d.confidence = (max_by_confidence d fs).confidence
      · have hdfirst : (d :: fs).find?
            (fun e => decide (e.confidence = (max_by_confidence d fs).confidence)) = some d :=
          List.find?_cons_of_pos _ (by simpa using hd)
        have hbd : max_by_confidence d fs = d :=
          Option.some_inj.mp ((ih d).symm.trans hdfirst)
        rw [hbd]
        exact List.find?_cons_of_pos _ (by simp)
      · have hdlt : d.confidence < (max_by_confidence d fs).confidence :=
          lt_of_le_of_ne (max_by_confidence_le fs d) hd
        have hflt : f.confidence < (max_by_confidence d fs).confidence :=
          lt_of_le_of_lt (not_lt.mp h) hdlt
        rw [List.find?_cons_of_neg _ (by simpa using ne_of_lt hdlt),
          List.find?_cons_of_neg _ (by simpa using ne_of_lt hflt)]
        have := ih d
        rwa [List.find?_cons_of_neg _ (by simpa using ne_of_lt hdlt)] at this

/-- One row of the `parking_sessions` table, restricted to the columns
the engine reads and writes. -/
structure DbSession where
  id : Nat
  spot_id : Nat
  car_identifier : Option String
  start_time : Nat
  end_time : Option Nat
  duration_minutes : Option ℚ
  confidence_score : ℚ
  image_path : Option String
deriving Repr, DecidableEq

/-- One row of the `alerts` table. -/
structure DbAlert where
  id : Nat
  session_id : Nat
  alert_type : String
  message : String
  image_path : Option String
  sent_to_slack : Bool
deriving Repr, DecidableEq

/-- The SQLite store: both tables plus the AUTOINCREMENT counters. -/
structure Database where
  sessions : List DbSession
  alerts : List DbAlert
  next_session_id : Nat
  next_alert_id : Nat
deriving Repr, DecidableEq

/-- `start_parking_session`: INSERT a new open session row and return
`cursor.lastrowid`. -/
def start_parking_session (db : Database) (now : Nat) (spot_id : Nat)
    (car_identifier : Option String) (confidence_score : ℚ)
    (image_path : Option String) : Nat × Database :=
  (db.next_session_id,
   { db with
     sessions := db.sessions ++
       [{ id := db.next_session_id, spot_id := spot_id, car_identifier := car_identifier,
          start_time := now, end_time := none, duration_minutes := none,
          confidence_score := confidence_score, image_path := image_path }],
     next_session_id := db.next_session_id + 1 })

/-- `SELECT start_time FROM parking_sessions WHERE id = ?` (whole row in
the model; ids are unique by AUTOINCREMENT). -/
def db_find_session (db : Database) (session_id : Nat) : Option DbSession :=
  db.sessions.find? (fun s => s.id == session_id)

/-- `end_parking_session`: unknown id returns `False` and changes
nothing; otherwise set `end_time` and the computed duration and return
`True`. -/
def end_parking_session (db : Database) (now : Nat) (session_id : Nat) : Bool × Database :=
  match db_find_session db session_id with
  | none => (false, db)
  | some s =>
    (true,
     { db with sessions := db.sessions.map (fun t =>
         if t.id = session_id then
           { t with
             end_time := some now,
             duration_minutes := some (((now : ℚ) - (s.start_time : ℚ)) / 60) }
         else t) })

/-- `get_long_parking_sessions`: the active sessions whose elapsed time
in hours strictly exceeds the threshold (the `julianday` difference in
days times 24, i.e. elapsed seconds over 3600). -/
def get_long_parking_sessions (db : Database) (now : Nat) (threshold_hours : ℚ) :
    List DbSession :=
  db.sessions.filter (fun s =>
    s.end_time == none &&
    decide (threshold_hours < ((now : ℚ) - (s.start_time : ℚ)) / 3600))

/-- `create_alert`: INSERT an alert row (`sent_to_slack` defaults to 0)
and return `cursor.lastrowid`. -/
def create_alert (db : Database) (session_id : Nat) (alert_type : String)
    (message : String) (image_path : Option String) : Nat × Database :=
  (db.next_alert_id,
   { db with
     alerts := db.alerts ++
       [{ id := db.next_alert_id, session_id := session_id, alert_type := alert_type,
          message := message, image_path := image_path, sent_to_slack := false }],
     next_alert_id := db.next_alert_id + 1 })

/-- `mark_alert_sent`: UPDATE the row's `sent_to_slack` flag. -/
def mark_alert_sent (db : Database) (alert_id : Nat) : Database :=
  { db with alerts := db.alerts.map (fun a =>
      if a.id = alert_id then { a with sent_to_slack := true } else a) }

/-- The per-spot dict value stored in `self.active_sessions`. -/
structure SessionData where
  id : Nat
  spot_id : Nat
  car_identifier : Option String
  start_time : Nat
  confidence_score : ℚ
  image_path : Option String
  spot_name : String
deriving Repr, DecidableEq

/-- One configured spot (`Config.PARKING_SPOTS` entry). -/
structure SpotCfg where
  id : Nat
  name : String
  coords : SpotCoords
deriving Repr, DecidableEq

/-- The monitor's mutable state: the store and the in-memory
`spot_id -> session_data` dict, modelled as an association list whose
keys are unique (Python dict keys are). -/
structure MonitorState where
  db : Database
  active_sessions : List (Nat × SessionData)
deriving Repr, DecidableEq

/-- The at-most-one-active-session-per-spot invariant: the dict keys of
`active_sessions` are pairwise distinct. -/
def keys_nodup (st : MonitorState) : Prop :=
  (st.active_sessions.map Prod.fst).Nodup

/-- `next((s['name'] for s in Config.PARKING_SPOTS if s['id'] == spot_id),
f"Spot {spot_id}")`. -/
def spot_name_of (spots : List SpotCfg) (spot_id : Nat) : String :=
  match spots.find? (fun s => s.id == spot_id) with
  | some s => s.name
  | none => "Spot " ++ toString spot_id

/-- `_handle_car_detected`: an existing active session for the spot
returns immediately with no mutation; otherwise persist a new session
and insert it into the dict.  `identify spot_id` stands for the
`detect_cars_in_spot` + `generate_car_identifier` call on the current
frame (`None` when that re-detection finds nothing). -/
def handle_car_detected (now : Nat) (tracking : Bool) (identify : Nat → Option String)
    (spots : List SpotCfg) (spot_id : Nat) (confidence : ℚ) (image_path : Option String)
    (st : MonitorState) : MonitorState :=
  if (st.active_sessions.lookup spot_id).isSome then st
  else
    let car_identifier := if tracking then identify spot_id else none
    let r := start_parking_session st.db now spot_id car_identifier confidence image_path
    let session_data : SessionData :=
      { id := r.1, spot_id := spot_id, car_identifier := car_identifier, start_time := now,
        confidence_score := confidence, image_path := image_path,
        spot_name := spot_name_of spots spot_id }
    { db := r.2, active_sessions := st.active_sessions ++ [(spot_id, session_data)] }

/-- `_end_session`: read the dict entry (callers guard membership;
Python would raise `KeyError` on a missing key, modelled as the
identity), attempt the store update, and delete the spot from the dict
unconditionally — also when `end_parking_session` returned `False`. -/
def end_session (now : Nat) (st : MonitorState) (spot_id : Nat) : MonitorState :=
  match st.active_sessions.lookup spot_id with
  | none => st
  | some sd =>
    let r := end_parking_session st.db now sd.id
    { db := r.2, active_sessions := st.active_sessions.eraseP (fun p => p.1 == spot_id) }

/-- `_handle_car_left`: end the session only if the spot has one. -/
def handle_car_left (now : Nat) (st : MonitorState) (spot_id : Nat) : MonitorState :=
  if (st.active_sessions.lookup spot_id).isSome then end_session now st spot_id else st

/-- The outcome of `is_spot_occupied` on one spot of the tick's frame:
the returned triple, or the detector raised. -/
inductive SpotCheck where
  | ok (occupied : Bool) (confidence : ℚ) (image_path : Option String)
  | raisedErr
deriving Repr, DecidableEq

/-- The `for spot in Config.PARKING_SPOTS` body of `_check_all_spots`.
There is no per-spot `try`: a detector exception propagates at once, so
mutations already made stay, the remaining spots are not checked, and
the returned flag records that the tick raised. -/
def check_spots_loop (now : Nat) (tracking : Bool) (identify : Nat → Option String)
    (spots_cfg : List SpotCfg) (detect : Nat → SpotCheck) :
    List SpotCfg → MonitorState → MonitorState × Bool
  | [], st => (st, false)
  | spot :: rest, st =>
    match detect spot.id with
    | .raisedErr => (st, true)
    | .ok occupied confidence image_path =>
      let st' := if occupied
        then handle_car_detected now tracking identify spots_cfg spot.id confidence image_path st
        else handle_car_left now st spot.id
      check_spots_loop now tracking identify spots_cfg detect rest st'

/-- `read_frame`: a successful first read returns the frame; otherwise
the camera is stopped, restarted, and one retry read is attempted.  The
three booleans are the environment's outcomes of the first read, the
restart, and the retry. -/
def read_frame (camera_opened read1 restart_ok read2 : Bool) : Bool :=
  if camera_opened then
    if read1 then true
    else if restart_ok && read2 then true else false
  else false

/-- `_check_all_spots`: a closed camera or a failed frame read returns
before any spot is looked at; otherwise every configured spot is checked
against the single frame. -/
def check_all_spots (now : Nat) (tracking : Bool) (identify : Nat → Option String)
    (spots_cfg : List SpotCfg) (detect : Nat → SpotCheck)
    (camera_opened : Bool) (read_ok : Bool) (st : MonitorState) : MonitorState × Bool :=
  if ¬ camera_opened then (st, false)
  else if ¬ read_ok then (st, false)
  else check_spots_loop now tracking identify spots_cfg detect spots_cfg st

/-- `_has_alert_been_sent` — the source returns `False` unconditionally:
"This is a simplified check ... For now, we'll assume no alerts have
been sent". -/
def has_alert_been_sent (_st : MonitorState) (_session_id : Nat) : Bool :=
  false

/-- The f-string `f"Car parked for over {threshold} hours"`. -/
def alert_message (threshold_hours : ℚ) : String :=
  "Car parked for over " ++ toString threshold_hours ++ " hours"

/-- `_send_long_parking_alert`: nothing without a Slack connection; on a
successful Slack delivery, record the alert row and mark it sent. -/
def send_long_parking_alert (threshold_hours : ℚ) (slack_connected : Bool)
    (send_ok : Nat → Bool) (sd : DbSession) (st : MonitorState) : MonitorState :=
  if ¬ slack_connected then st
  else if send_ok sd.id then
    let r := create_alert st.db sd.id "long_parking" (alert_message threshold_hours) sd.image_path
    { st with db := mark_alert_sent r.2 r.1 }
  else st

/-- `_check_long_parking_alerts`: query the overstaying sessions once,
then alert each one unless `_has_alert_been_sent` reports otherwise. -/
def check_long_parking_alerts (now : Nat) (threshold_hours : ℚ) (slack_connected : Bool)
    (send_ok : Nat → Bool) (st : MonitorState) : MonitorState :=
  (get_long_parking_sessions st.db now threshold_hours).foldl
    (fun s sess =>
      if has_alert_been_sent s sess.id then s
      else send_long_parking_alert threshold_hours slack_connected send_ok sess s) st

/-- One `_monitor_loop` iteration at a detection-due instant: check all
spots, then scan for overstay alerts.  An exception raised inside
`_check_all_spots` skips the alert scan and is caught by the loop's
`except` handler (log, sleep, continue), so the iteration always
returns a state and the loop survives. -/
def monitor_iter (now : Nat) (tracking : Bool) (identify : Nat → Option String)
    (spots_cfg : List SpotCfg) (detect : Nat → SpotCheck)
    (camera_opened read_ok : Bool) (threshold_hours : ℚ) (slack_connected : Bool)
    (send_ok : Nat → Bool) (st : MonitorState) : MonitorState :=
  let r := check_all_spots now tracking identify spots_cfg detect camera_opened read_ok st
  if r.2 then r.1
  else check_long_parking_alerts now threshold_hours slack_connected send_ok r.1

/-- C6: for every non-empty detection list, the detection selected as
"best" is a member with maximum confidence, and when several share the
maximum the first in list order is selected (the list is not
re-sorted). -/
theorem claim_C6_best_detection (d : Detection) (ds : List Detection) :
    max_by_confidence d ds ∈ d :: ds ∧
    (∀ e ∈ d :: ds, e.confidence ≤ (max_by_confidence d ds).confidence) ∧
    (d :: ds).find? (fun e => decide (e.confidence = (max_by_confidence d ds).confidence))
      = some (max_by_confidence d ds) :=
  ⟨max_by_confidence_mem ds d, max_by_confidence_ge ds d, max_by_confidence_first ds d⟩

/-- C3: an evidence image path is produced iff the best detection's
confidence is strictly greater than the threshold (no detections means
no image and occupied=false), and when every vehicle-class detection of
the raw model output is below the threshold the check reports
occupied=false. -/
theorem claim_C3_evidence_strict (threshold : ℚ) (W H : Nat) (raw : List Detection)
    (c : SpotCoords) (saveName : String) :
    (detect_cars_in_spot threshold W H raw c = [] →
      is_spot_occupied threshold W H raw c saveName = (false, 0, none)) ∧
    (∀ d ds, detect_cars_in_spot threshold W H raw c = d :: ds →
      ((is_spot_occupied threshold W H raw c saveName).2.2.isSome ↔
        threshold < (max_by_confidence d ds).confidence)) ∧
    ((∀ d ∈ raw, d.classId ∈ car_classes → d.confidence < threshold) →
      (is_spot_occupied threshold W H raw c saveName).1 = false) := by
  refine ⟨?_, ?_, ?_⟩
  · intro hnil
    simp [is_spot_occupied, hnil]
  · intro d ds hdets
    simp only [is_spot_occupied, hdets]
    by_cases h : threshold < (max_by_confidence d ds).confidence
    · simp [h]
    · simp [h]
  · intro hbelow
    have hnil : detect_cars_in_spot threshold W H raw c = [] := by
      unfold detect_cars_in_spot
      by_cases hr : roi_empty W H c
      · simp [hr]
      · have hfil : detect_cars_in_frame threshold raw = [] := by
          unfold detect_cars_in_frame
          rw [List.filter_eq_nil_iff]
          intro d hd
          by_cases hc : d.classId ∈ car_classes
          · have := hbelow d hd hc
            simp [hc, not_le.mpr this]
          · simp [hc]
        simp [hr, hfil]
    simp [is_spot_occupied, hnil]

/-- C3 witness: a concrete 3/4-confidence car above a 1/2 threshold
yields an evidence image, and a concrete all-below-threshold output
yields occupied=false. -/
theorem claim_C3_evidence_strict_witness :
    (detect_cars_in_spot (mkRat 1 2) 100 100 [⟨1, 1, 9, 9, mkRat 3 4, 2⟩] ⟨0, 0, 20, 20⟩
        = [⟨1, 1, 9, 9, mkRat 3 4, 2⟩] ∧
      ((is_spot_occupied (mkRat 1 2) 100 100 [⟨1, 1, 9, 9, mkRat 3 4, 2⟩] ⟨0, 0, 20, 20⟩ "ev.jpg").2.2.isSome ↔
        (mkRat 1 2 : ℚ) < (max_by_confidence ⟨1, 1, 9, 9, mkRat 3 4, 2⟩ []).confidence)) ∧
    ((∀ d ∈ [Detection.mk 1 1 9 9 (mkRat 1 4) 2], d.classId ∈ car_classes → d.confidence < mkRat 1 2) ∧
      (is_spot_occupied (mkRat 1 2) 100 100 [⟨1, 1, 9, 9, mkRat 1 4, 2⟩] ⟨0, 0, 20, 20⟩ "ev.jpg").1 = false) :=
  ⟨⟨by decide,
    (claim_C3_evidence_strict (mkRat 1 2) 100 100 [⟨1, 1, 9, 9, mkRat 3 4, 2⟩] ⟨0, 0, 20, 20⟩ "ev.jpg").2.1
      ⟨1, 1, 9, 9, mkRat 3 4, 2⟩ [] (by decide)⟩,
   ⟨by decide,
    (claim_C3_evidence_strict (mkRat 1 2) 100 100 [⟨1, 1, 9, 9, mkRat 1 4, 2⟩] ⟨0, 0, 20, 20⟩ "ev.jpg").2.2
      (by decide)⟩⟩

/-- C9: when the best filtered detection's confidence is exactly the
threshold, the check returns occupied=true with that confidence and no
evidence image (inclusive filter, strict evidence capture). -/
theorem claim_C9_threshold_boundary (threshold : ℚ) (W H : Nat) (raw : List Detection)
    (c : SpotCoords) (saveName : String) (d : Detection) (ds : List Detection)
    (hdets : detect_cars_in_spot threshold W H raw c = d :: ds)
    (hconf : (max_by_confidence d ds).confidence = threshold) :
    is_spot_occupied threshold W H raw c saveName = (true, threshold, none) := by
  simp only [is_spot_occupied, hdets]
  rw [hconf]
  simp

/-- C9 witness: a single class-2 detection with confidence exactly 1/2
against threshold 1/2 survives the inclusive filter and yields
`(true, 1/2, none)`. -/
theorem claim_C9_threshold_boundary_witness :
    detect_cars_in_spot (mkRat 1 2) 100 100 [⟨1, 1, 9, 9, mkRat 1 2, 2⟩] ⟨0, 0, 20, 20⟩
        = [⟨1, 1, 9, 9, mkRat 1 2, 2⟩] ∧
    (max_by_confidence ⟨1, 1, 9, 9, mkRat 1 2, 2⟩ []).confidence = (mkRat 1 2 : ℚ) ∧
    is_spot_occupied (mkRat 1 2) 100 100 [⟨1, 1, 9, 9, mkRat 1 2, 2⟩] ⟨0, 0, 20, 20⟩ "ev.jpg"
        = (true, mkRat 1 2, none) :=
  ⟨by decide, by decide,
    claim_C9_threshold_boundary (mkRat 1 2) 100 100 [⟨1, 1, 9, 9, mkRat 1 2, 2⟩] ⟨0, 0, 20, 20⟩ "ev.jpg"
      ⟨1, 1, 9, 9, mkRat 1 2, 2⟩ [] (by decide) (by decide)⟩

theorem lookup_none_not_key {β : Type} (k : Nat) (l : List (Nat × β))
    (h : l.lookup k = none) : k ∉ l.map Prod.fst := by
  induction l with
  | nil => simp
  | cons p ps ih =>
    obtain ⟨a, b⟩ := p
    rw [List.lookup_cons] at h
    by_cases hk : k = a
    · subst hk
      simp at h
    · have hba : (k == a) = false := by simp [hk]
      simp only [hba] at h
      simp only [List.map_cons, List.mem_cons]
      rintro (rfl | hmem)
      · exact hk rfl
      · exact ih h hmem

theorem handle_car_detected_keys (now : Nat) (tracking : Bool)
    (identify : Nat → Option String) (spots : List SpotCfg) (spot_id : Nat)
    (confidence : ℚ) (image_path : Option String) (st : MonitorState)
    (h : keys_nodup st) :
    keys_nodup (handle_car_detected now tracking identify spots spot_id confidence image_path st) := by
  unfold handle_car_detected
  by_cases hmem : (st.active_sessions.lookup spot_id).isSome
  · rwa [if_pos hmem]
  · rw [if_neg hmem]
    have hnone : st.active_sessions.lookup spot_id = none :=
      Option.not_isSome_iff_eq_none.mp hmem
    have hnk := lookup_none_not_key spot_id st.active_sessions hnone
    unfold keys_nodup at h ⊢
    simp only [List.map_append, List.map_cons, List.map_nil]
    rw [List.nodup_append]
    refine ⟨h, List.nodup_singleton _, ?_⟩
    intro a ha hb
    rcases List.mem_singleton.mp hb with rfl
    exact hnk ha

theorem end_session_keys (now : Nat) (st : MonitorState) (spot_id : Nat)
    (h : keys_nodup st) : keys_nodup (end_session now st spot_id) := by
  unfold end_session
  cases hl : st.active_sessions.lookup spot_id with
  | none => exact h
  | some sd =>
    unfold keys_nodup at h ⊢
    exact List.Nodup.sublist (List.Sublist.map _ (List.eraseP_sublist _)) h

theorem handle_car_left_keys (now : Nat) (st : MonitorState) (spot_id : Nat)
    (h : keys_nodup st) : keys_nodup (handle_car_left now st spot_id) := by
  unfold handle_car_left
  by_cases hmem : (st.active_sessions.lookup spot_id).isSome
  · rw [if_pos hmem]
    exact end_session_keys now st spot_id h
  · rwa [if_neg hmem]

theorem check_spots_loop_keys (now : Nat) (tracking : Bool)
    (identify : Nat → Option String) (spots_cfg : List SpotCfg)
    (detect : Nat → SpotCheck) (l : List SpotCfg) (st : MonitorState)
    (h : keys_nodup st) :
    keys_nodup (check_spots_loop now tracking identify spots_cfg detect l st).1 := by
  induction l generalizing st with
  | nil => exact h
  | cons spot rest ih =>
    simp only [check_spots_loop]
    cases hds : detect spot.id with
    | raisedErr => exact h
    | ok occupied confidence image_path =>
      apply ih
      by_cases ho : occupied
      · simp only [ho, if_true]
        exact handle_car_detected_keys now tracking identify spots_cfg spot.id
          confidence image_path st h
      · simp only [ho, if_false]
        exact handle_car_left_keys now st spot.id h

theorem send_long_parking_alert_active (threshold_hours : ℚ) (slack_connected : Bool)
    (send_ok : Nat → Bool) (sd : DbSession) (st : MonitorState) :
    (send_long_parking_alert threshold_hours slack_connected send_ok sd st).active_sessions
      = st.active_sessions := by
  unfold send_long_parking_alert
  by_cases h1 : slack_connected
  · by_cases h2 : send_ok sd.id
    · simp [h1, h2]
    · simp [h1, h2]
  · simp [h1]

theorem check_long_parking_alerts_active (now : Nat) (threshold_hours : ℚ)
    (slack_connected : Bool) (send_ok : Nat → Bool) (st : MonitorState) :
    (check_long_parking_alerts now threshold_hours slack_connected send_ok st).active_sessions
      = st.active_sessions := by
  unfold check_long_parking_alerts
  generalize get_long_parking_sessions st.db now threshold_hours = l
  induction l generalizing st with
  | nil => rfl
  | cons sess rest ih =>
    simp only [List.foldl_cons]
    rw [ih]
    by_cases h : has_alert_been_sent st sess.id
    · rw [if_pos h]
    · rw [if_neg h]
      exact send_long_parking_alert_active threshold_hours slack_connected send_ok sess st

theorem check_all_spots_keys (now : Nat) (tracking : Bool)
    (identify : Nat → Option String) (spots_cfg : List SpotCfg)
    (detect : Nat → SpotCheck) (camera_opened read_ok : Bool) (st : MonitorState)
    (h : keys_nodup st) :
    keys_nodup (check_all_spots now tracking identify spots_cfg detect
      camera_opened read_ok st).1 := by
  unfold check_all_spots
  split
  · exact h
  · split
    · exact h
    · exact check_spots_loop_keys now tracking identify spots_cfg detect spots_cfg st h

/-- C1: a detection tick preserves the at-most-one-active-session-per-
spot invariant (unique dict keys), and a repeated occupied detection for
a spot that already has an active session performs no mutation at all:
the monitor state, the existing session's fields included, is returned
unchanged. -/
theorem claim_C1_unique_session (now : Nat) (tracking : Bool)
    (identify : Nat → Option String) (spots_cfg : List SpotCfg)
    (detect : Nat → SpotCheck) (camera_opened read_ok : Bool)
    (threshold_hours : ℚ) (slack_connected : Bool) (send_ok : Nat → Bool)
    (st : MonitorState) (hinv : keys_nodup st) :
    keys_nodup (monitor_iter now tracking identify spots_cfg detect camera_opened read_ok
      threshold_hours slack_connected send_ok st) ∧
    (∀ spot_id confidence image_path, (st.active_sessions.lookup spot_id).isSome →
      handle_car_detected now tracking identify spots_cfg spot_id confidence image_path st
        = st) := by
  constructor
  · unfold monitor_iter
    have hc := check_all_spots_keys now tracking identify spots_cfg detect
      camera_opened read_ok st hinv
    by_cases hr : (check_all_spots now tracking identify spots_cfg detect
        camera_opened read_ok st).2
    · rwa [if_pos hr]
    · rw [if_neg hr]
      unfold keys_nodup
      rw [check_long_parking_alerts_active]
      exact hc
  · intro spot_id confidence image_path hmem
    unfold handle_car_detected
    rw [if_pos hmem]

/-- An empty store, for concrete instantiations. -/
def exEmptyDb : Database :=
  { sessions := [], alerts := [], next_session_id := 1, next_alert_id := 1 }

/-- A concrete dict entry for an active session on spot 2. -/
def exSessionB : SessionData :=
  { id := 7, spot_id := 2, car_identifier := none, start_time := 0, confidence_score := 1,
    image_path := none, spot_name := "B" }

/-- A concrete monitor state: spot 2 has an active session. -/
def exStateB : MonitorState :=
  { db := exEmptyDb, active_sessions := [(2, exSessionB)] }

/-- C1 witness: a concrete state with one active session on spot 2 keeps
unique keys through a tick, and a repeated detection on spot 2 is a
no-op. -/
theorem claim_C1_unique_session_witness :
    keys_nodup exStateB ∧
    (keys_nodup (monitor_iter 60 false (fun _ => none) [] (fun _ => SpotCheck.ok false 0 none)
        true true 5 false (fun _ => false) exStateB) ∧
      (∀ spot_id confidence image_path,
        (exStateB.active_sessions.lookup spot_id).isSome →
        handle_car_detected 60 false (fun _ => none) [] spot_id confidence image_path exStateB
          = exStateB)) :=
  ⟨by unfold keys_nodup; decide,
   claim_C1_unique_session 60 false (fun _ => none) [] (fun _ => SpotCheck.ok false 0 none)
     true true 5 false (fun _ => false) exStateB (by unfold keys_nodup; decide)⟩

/-- C4: a closed camera, or a frame read that fails even after the
inline reconnect retry, skips the whole detection tick: the monitor
state — sessions and store alike — is returned unchanged. -/
theorem claim_C4_camera_unavailable_skips (now : Nat) (tracking : Bool)
    (identify : Nat → Option String) (spots_cfg : List SpotCfg) (detect : Nat → SpotCheck)
    (camera_opened read1 restart_ok read2 : Bool) (st : MonitorState)
    (h : camera_opened = false ∨ read_frame camera_opened read1 restart_ok read2 = false) :
    check_all_spots now tracking identify spots_cfg detect camera_opened
      (read_frame camera_opened read1 restart_ok read2) st = (st, false) := by
  rcases h with h | h
  · subst h
    simp [check_all_spots]
  · rw [h]
    by_cases hc : camera_opened <;> simp [check_all_spots, hc]

/-- C4 witness: both skip paths at concrete inputs — camera closed, and
camera open with first read, restart and retry all failing — leave a
concrete state with an active session untouched. -/
theorem claim_C4_camera_unavailable_skips_witness :
    ((false = false ∨ read_frame false true true true = false) ∧
      check_all_spots 60 false (fun _ => none) [] (fun _ => SpotCheck.raisedErr) false
        (read_frame false true true true) exStateB = (exStateB, false)) ∧
    ((true = false ∨ read_frame true false false false = false) ∧
      check_all_spots 60 false (fun _ => none) [] (fun _ => SpotCheck.raisedErr) true
        (read_frame true false false false) exStateB = (exStateB, false)) :=
  ⟨⟨Or.inl rfl, claim_C4_camera_unavailable_skips 60 false (fun _ => none) []
      (fun _ => SpotCheck.raisedErr) false true true true exStateB (Or.inl rfl)⟩,
   ⟨Or.inr (by decide), claim_C4_camera_unavailable_skips 60 false (fun _ => none) []
      (fun _ => SpotCheck.raisedErr) true false false false exStateB (Or.inr (by decide))⟩⟩

theorem check_spots_loop_raises (now : Nat) (tracking : Bool)
    (identify : Nat → Option String) (spots_cfg : List SpotCfg) (detect : Nat → SpotCheck)
    (bad : SpotCfg) (post : List SpotCfg) (hbad : detect bad.id = SpotCheck.raisedErr) :
    ∀ (pre : List SpotCfg) (st : MonitorState),
      (∀ s ∈ pre, detect s.id ≠ SpotCheck.raisedErr) →
      check_spots_loop now tracking identify spots_cfg detect (pre ++ bad :: post) st
        = ((check_spots_loop now tracking identify spots_cfg detect pre st).1, true) := by
  intro pre
  induction pre with
  | nil =>
    intro st _
    simp only [List.nil_append, check_spots_loop, hbad]
  | cons s rest ih =>
    intro st hpre
    have hs : detect s.id ≠ SpotCheck.raisedErr := hpre s (List.mem_cons_self s rest)
    cases hds : detect s.id with
    | raisedErr => exact absurd hds hs
    | ok occupied confidence image_path =>
      simp only [List.cons_append, check_spots_loop, hds]
      exact ih _ (fun t ht => hpre t (List.mem_cons_of_mem s ht))

/-- C5 amended: a detector error on one spot propagates (there is no
per-spot handler): the faulting spot and every later spot of the tick
undergo no transition — the tick's effect is exactly that of the spots
before the fault — while the error is caught at the monitoring-loop
level, which skips the alert scan for the iteration and continues. -/
theorem claim_C5_detector_fault (now : Nat) (tracking : Bool) (identify : Nat → Option String)
    (detect : Nat → SpotCheck) (pre post : List SpotCfg) (bad : SpotCfg) (st : MonitorState)
    (threshold_hours : ℚ) (slack_connected : Bool) (send_ok : Nat → Bool)
    (hpre : ∀ s ∈ pre, detect s.id ≠ SpotCheck.raisedErr)
    (hbad : detect bad.id = SpotCheck.raisedErr) :
    check_all_spots now tracking identify (pre ++ bad :: post) detect true true st
      = ((check_spots_loop now tracking identify (pre ++ bad :: post) detect pre st).1, true) ∧
    monitor_iter now tracking identify (pre ++ bad :: post) detect true true
        threshold_hours slack_connected send_ok st
      = (check_spots_loop now tracking identify (pre ++ bad :: post) detect pre st).1 := by
  have hloop := check_spots_loop_raises now tracking identify (pre ++ bad :: post) detect
    bad post hbad pre st hpre
  have hca : check_all_spots now tracking identify (pre ++ bad :: post) detect true true st
      = ((check_spots_loop now tracking identify (pre ++ bad :: post) detect pre st).1, true) := by
    simpa [check_all_spots] using hloop
  exact ⟨hca, by simp [monitor_iter, hca]⟩

/-- Spot configurations for concrete instantiations. -/
def exSpotA : SpotCfg := ⟨1, "A", ⟨0, 0, 8, 8⟩⟩

def exSpotB : SpotCfg := ⟨2, "B", ⟨8, 0, 8, 8⟩⟩

def exSpotC : SpotCfg := ⟨3, "C", ⟨16, 0, 8, 8⟩⟩

/-- A detector oracle that raises on spot 2 and reports empty (no car)
everywhere else. -/
def exDetectErr2 : Nat → SpotCheck :=
  fun sid => if sid = 2 then SpotCheck.raisedErr else SpotCheck.ok false 0 none

/-- C5 counterexample: with spots [1, 2], a detector fault on spot 1 and
a car-gone result waiting on spot 2, the tick aborts at spot 1 and spot
2's active session survives — though the claim says spot 2 would still
be checked, which (second conjunct) would have mutated the state. -/
theorem claim_C5_counterexample :
    (check_all_spots 100 false (fun _ => none) [exSpotA, exSpotB]
        (fun sid => if sid = 1 then SpotCheck.raisedErr else SpotCheck.ok false 0 none)
        true true exStateB).1.active_sessions = [(2, exSessionB)] ∧
    handle_car_left 100 exStateB 2 ≠ exStateB := by
  exact ⟨by decide, by decide⟩

/-- C5 witness: spots [1, 2, 3] with a fault on spot 2: the tick's
effect is that of spot 1 alone, and the iteration returns that state. -/
theorem claim_C5_detector_fault_witness :
    (∀ s ∈ [exSpotA], exDetectErr2 s.id ≠ SpotCheck.raisedErr) ∧
    exDetectErr2 exSpotB.id = SpotCheck.raisedErr ∧
    (check_all_spots 100 false (fun _ => none) ([exSpotA] ++ exSpotB :: [exSpotC])
        exDetectErr2 true true exStateB
      = ((check_spots_loop 100 false (fun _ => none) ([exSpotA] ++ exSpotB :: [exSpotC])
          exDetectErr2 [exSpotA] exStateB).1, true) ∧
     monitor_iter 100 false (fun _ => none) ([exSpotA] ++ exSpotB :: [exSpotC])
        exDetectErr2 true true 5 false (fun _ => false) exStateB
      = (check_spots_loop 100 false (fun _ => none) ([exSpotA] ++ exSpotB :: [exSpotC])
          exDetectErr2 [exSpotA] exStateB).1) :=
  ⟨by decide, by decide,
   claim_C5_detector_fault 100 false (fun _ => none) exDetectErr2 [exSpotA] [exSpotC]
     exSpotB exStateB 5 false (fun _ => false) (by decide) (by decide)⟩

/-- C10: `_end_session` always removes the spot from the in-memory dict;
when the persistent store does not know the session id the store update
reports failure and leaves the store unchanged, yet the removal still
happens — the two effects are not atomic. -/
theorem claim_C10_end_session_unconditional_removal (now : Nat) (st : MonitorState)
    (spot_id : Nat) (sd : SessionData)
    (h : st.active_sessions.lookup spot_id = some sd) :
    (end_session now st spot_id).active_sessions
      = st.active_sessions.eraseP (fun p => p.1 == spot_id) ∧
    (db_find_session st.db sd.id = none →
      (end_parking_session st.db now sd.id).1 = false ∧
      (end_session now st spot_id).db = st.db) := by
  simp only [end_session, h]
  constructor
  · simp
  · intro hnone
    simp [end_parking_session, hnone]

/-- A dict entry whose session id 9 is absent from the store. -/
def exSessionOrphan : SessionData :=
  { id := 9, spot_id := 3, car_identifier := none, start_time := 0, confidence_score := 1,
    image_path := none, spot_name := "C" }

/-- A state tracking the orphaned session on spot 3 over an empty store. -/
def exStateOrphan : MonitorState :=
  { db := exEmptyDb, active_sessions := [(3, exSessionOrphan)] }

/-- C10 witness: ending spot 3's session removes it from the dict even
though the store lookup fails and reports `False`. -/
theorem claim_C10_end_session_unconditional_removal_witness :
    exStateOrphan.active_sessions.lookup 3 = some exSessionOrphan ∧
    ((end_session 50 exStateOrphan 3).active_sessions
        = exStateOrphan.active_sessions.eraseP (fun p => p.1 == 3) ∧
      (db_find_session exStateOrphan.db exSessionOrphan.id = none →
        (end_parking_session exStateOrphan.db 50 exSessionOrphan.id).1 = false ∧
        (end_session 50 exStateOrphan 3).db = exStateOrphan.db)) :=
  ⟨by decide, claim_C10_end_session_unconditional_removal 50 exStateOrphan 3 exSessionOrphan
    (by decide)⟩

/-- A session row on spot 1 that started at time 0 and never ended. -/
def exDbSessionLong : DbSession :=
  { id := 1, spot_id := 1, car_identifier := none, start_time := 0, end_time := none,
    duration_minutes := none, confidence_score := 1, image_path := none }

/-- A store holding only that session. -/
def exDbLong : Database :=
  { sessions := [exDbSessionLong], alerts := [], next_session_id := 2, next_alert_id := 1 }

/-- The monitor state over that store, with an empty in-memory dict. -/
def exStateLong : MonitorState :=
  { db := exDbLong, active_sessions := [] }

/-- C2 is violated by the code: `_has_alert_been_sent` returns `False`
unconditionally, so a session still overstaying at the next scan is
alerted again.  Six hours into session 1 (threshold 5 hours), two
consecutive scans with Slack connected and deliveries succeeding record
two `long_parking` alerts for the same session — and the dedup check
still reports `false` after the first alert was recorded and marked
sent. -/
theorem claim_C2_duplicate_alerts :
    ((check_long_parking_alerts 21600 5 true (fun _ => true)
        (check_long_parking_alerts 21600 5 true (fun _ => true) exStateLong)).db.alerts.map
      (fun a => (a.session_id, a.alert_type, a.sent_to_slack)))
      = [(1, "long_parking", true), (1, "long_parking", true)] ∧
    has_alert_been_sent (check_long_parking_alerts 21600 5 true (fun _ => true) exStateLong) 1
      = false := by
  have hget : ∀ db : Database, db.sessions = [exDbSessionLong] →
      get_long_parking_sessions db 21600 5 = [exDbSessionLong] := by
    intro db hdb
    unfold get_long_parking_sessions
    rw [hdb]
    simp [exDbSessionLong]
    norm_num
  have hscan : ∀ st : MonitorState, st.db.sessions = [exDbSessionLong] →
      check_long_parking_alerts 21600 5 true (fun _ => true) st
        = { st with
            db := mark_alert_sent (create_alert st.db 1 "long_parking" (alert_message 5) none).2
              (create_alert st.db 1 "long_parking" (alert_message 5) none).1 } := by
    intro st hdb
    unfold check_long_parking_alerts
    rw [hget st.db hdb]
    simp [has_alert_been_sent, send_long_parking_alert, exDbSessionLong]
  have h1 := hscan exStateLong (by decide)
  have hs1 : (check_long_parking_alerts 21600 5 true (fun _ => true) exStateLong).db.sessions
      = [exDbSessionLong] := by
    rw [h1]
    decide
  have h2 := hscan _ hs1
  rw [h2, h1]
  constructor
  · decide
  · rfl

/-- A stored evidence image as the cleanup sees it: its `os.listdir`
name and `os.path.getmtime` modification time. -/
structure StoredFile where
  name : String
  mtime : Nat
deriving Repr, DecidableEq

/-- `cleanup_old_images`: return without deleting when the count is at
or under `MAX_STORED_IMAGES`; otherwise sort by modification time
ascending (Python's stable sort) and attempt `os.remove` on the first
`len(files) - MAX_STORED_IMAGES` entries, swallowing each failure
(`except OSError: pass`).  `removeOk` is the filesystem's verdict on
each removal; the result is the listing that remains on disk. -/
def cleanup_old_images (maxImages : Nat) (removeOk : String → Bool)
    (files : List StoredFile) : List StoredFile :=
  if files.length ≤ maxImages then files
  else
    let files_with_time := files.mergeSort (fun a b => decide (a.mtime ≤ b.mtime))
    let to_remove := files_with_time.take (files.length - maxImages)
    files.filter (fun f => decide (¬ (f ∈ to_remove ∧ removeOk f.name = true)))

/-- C7: when the listing is at or under the limit nothing is deleted;
when it exceeds the limit and every removal succeeds, exactly the
oldest-by-mtime files go until the count equals the limit (every file
removed is no newer than every file kept); and a file whose removal
fails is swallowed — it simply stays in the listing. -/
theorem claim_C7_retention (maxImages : Nat) (removeOk : String → Bool)
    (files : List StoredFile) (hnd : files.Nodup) :
    (files.length ≤ maxImages → cleanup_old_images maxImages removeOk files = files) ∧
    ((∀ f : StoredFile, removeOk f.name = true) → maxImages < files.length →
      (cleanup_old_images maxImages removeOk files).length = maxImages ∧
      (∀ f ∈ files, f ∉ cleanup_old_images maxImages removeOk files →
        ∀ g ∈ cleanup_old_images maxImages removeOk files, f.mtime ≤ g.mtime)) ∧
    (∀ f ∈ files, removeOk f.name = false →
      f ∈ cleanup_old_images maxImages removeOk files) := by
  set le : StoredFile → StoredFile → Bool := fun a b => decide (a.mtime ≤ b.mtime) with hle
  set sorted := files.mergeSort le with hsorted
  set k := files.length - maxImages with hk
  have hperm : sorted.Perm files := List.mergeSort_perm files le
  refine ⟨?_, ?_, ?_⟩
  · intro hle'
    unfold cleanup_old_images
    rw [if_pos hle']
  · intro hok hlt
    have hnotle : ¬ files.length ≤ maxImages := not_le.mpr hlt
    have hres : cleanup_old_images maxImages removeOk files
        = files.filter (fun f => decide (f ∉ sorted.take k)) := by
      unfold cleanup_old_images
      rw [if_neg hnotle]
      apply List.filter_congr
      intro f _
      simp [hok f]
    have hndsorted : sorted.Nodup := hperm.nodup_iff.mpr hnd
    have hsplit : sorted.take k ++ sorted.drop k = sorted := List.take_append_drop k sorted
    have hdisj : ∀ a ∈ sorted.take k, ∀ b ∈ sorted.drop k, a ≠ b := by
      have := hndsorted
      rw [← hsplit, List.nodup_append] at this
      intro a ha b hb hab
      exact this.2.2 ha (hab ▸ hb)
    have hfiltperm : (files.filter (fun f => decide (f ∉ sorted.take k))).Perm
        (sorted.filter (fun f => decide (f ∉ sorted.take k))) :=
      (hperm.filter _).symm
    have hfiltsorted : sorted.filter (fun f => decide (f ∉ sorted.take k))
        = sorted.drop k := by
      have h1 : (sorted.take k).filter (fun f => decide (f ∉ sorted.take k)) = [] := by
        rw [List.filter_eq_nil_iff]
        intro a ha
        simp [ha]
      have h2 : (sorted.drop k).filter (fun f => decide (f ∉ sorted.take k))
          = sorted.drop k := by
        rw [List.filter_eq_self]
        intro a ha
        simp only [decide_eq_true_eq]
        intro hmem
        exact hdisj a hmem a ha rfl
      have hsum : (sorted.take k ++ sorted.drop k).filter (fun f => decide (f ∉ sorted.take k))
          = sorted.drop k := by
        rw [List.filter_append, h1, h2, List.nil_append]
      rw [hsplit] at hsum
      exact hsum
    have hlen : (cleanup_old_images maxImages removeOk files).length = maxImages := by
      rw [hres, hfiltperm.length_eq, hfiltsorted, List.length_drop,
        hperm.length_eq, hk]
      omega
    refine ⟨hlen, ?_⟩
    intro f hf hfout g hg
    rw [hres] at hfout hg
    have hfin : f ∈ sorted.take k := by
      by_contra hfin
      exact hfout (List.mem_filter.mpr ⟨hf, by simpa using hfin⟩)
    have hgdrop : g ∈ sorted.drop k := by
      have hg' := List.mem_filter.mp hg
      have hgs : g ∈ sorted := hperm.mem_iff.mpr hg'.1
      have hgnot : g ∉ sorted.take k := by simpa using hg'.2
      rcases (List.mem_append.mp (hsplit ▸ hgs)) with h | h
      · exact absurd h hgnot
      · exact h
    have hsortedp := @List.sorted_mergeSort StoredFile le
      (fun a b c hab hbc => by
        simp only [hle, decide_eq_true_eq] at hab hbc ⊢
        exact le_trans hab hbc)
      (fun a b => by
        simp only [hle, Bool.or_eq_true, decide_eq_true_eq]
        exact le_total a.mtime b.mtime)
      files
    have hpw : List.Pairwise (fun a b => le a b = true) (sorted.take k ++ sorted.drop k) := by
      rw [hsplit]
      exact hsortedp
    have := (List.pairwise_append.mp hpw).2.2 f hfin g hgdrop
    simpa [hle] using this
  · intro f hf hfail
    unfold cleanup_old_images
    by_cases hlen : files.length ≤ maxImages
    · rw [if_pos hlen]
      exact hf
    · rw [if_neg hlen]
      refine List.mem_filter.mpr ⟨hf, ?_⟩
      simp [hfail]

/-- C7 witness: three files over a limit of 1 with all removals
succeeding, instantiating every clause at a concrete listing. -/
theorem claim_C7_retention_witness :
    ([⟨"a", 10⟩, ⟨"b", 20⟩, ⟨"c", 15⟩] : List StoredFile).Nodup ∧
    ((([⟨"a", 10⟩, ⟨"b", 20⟩, ⟨"c", 15⟩] : List StoredFile).length ≤ 1 →
        cleanup_old_images 1 (fun _ => true) [⟨"a", 10⟩, ⟨"b", 20⟩, ⟨"c", 15⟩]
          = [⟨"a", 10⟩, ⟨"b", 20⟩, ⟨"c", 15⟩]) ∧
      ((∀ f : StoredFile, (fun _ => true) f.name = true) →
        1 < ([⟨"a", 10⟩, ⟨"b", 20⟩, ⟨"c", 15⟩] : List StoredFile).length →
        (cleanup_old_images 1 (fun _ => true) [⟨"a", 10⟩, ⟨"b", 20⟩, ⟨"c", 15⟩]).length = 1 ∧
        (∀ f ∈ ([⟨"a", 10⟩, ⟨"b", 20⟩, ⟨"c", 15⟩] : List StoredFile),
          f ∉ cleanup_old_images 1 (fun _ => true) [⟨"a", 10⟩, ⟨"b", 20⟩, ⟨"c", 15⟩] →
          ∀ g ∈ cleanup_old_images 1 (fun _ => true) [⟨"a", 10⟩, ⟨"b", 20⟩, ⟨"c", 15⟩],
            f.mtime ≤ g.mtime)) ∧
      (∀ f ∈ ([⟨"a", 10⟩, ⟨"b", 20⟩, ⟨"c", 15⟩] : List StoredFile),
        (fun (_ : String) => true) f.name = false →
        f ∈ cleanup_old_images 1 (fun _ => true) [⟨"a", 10⟩, ⟨"b", 20⟩, ⟨"c", 15⟩])) :=
  ⟨by decide, claim_C7_retention 1 (fun _ => true) [⟨"a", 10⟩, ⟨"b", 20⟩, ⟨"c", 15⟩] (by decide)⟩

/-- A BGR image as a pixel grid: `pix row col` are the channel bytes. -/
structure Img where
  h : Nat
  w : Nat
  pix : Nat → Nat → Nat × Nat × Nat

/-- A single-channel grayscale image. -/
structure GrayImg where
  h : Nat
  w : Nat
  pix : Nat → Nat → Nat

/-- `frame[y1:y2, x1:x2]` — numpy slicing clips to the frame bounds. -/
def crop_img (frame : Img) (x1 y1 x2 y2 : Nat) : Img :=
  { h := min y2 frame.h - y1
    w := min x2 frame.w - x1
    pix := fun r c => frame.pix (y1 + r) (x1 + c) }

/-- Sum of the gray values over rows `[r0, r1)` and columns `[c0, c1)`. -/
def region_sum (g : GrayImg) (r0 r1 c0 c1 : Nat) : Nat :=
  (List.range (r1 - r0)).foldl
    (fun acc r => (List.range (c1 - c0)).foldl
      (fun acc2 c => acc2 + g.pix (r0 + r) (c0 + c)) acc) 0

/-- `int(region.mean())` over that rectangle: the floor of the average.
This is exact for the 64×64 resize output the source feeds it — the
quadrant pixel counts are powers of two, so the float mean is exactly
representable and `int` truncation of a nonnegative value is floor. -/
def region_mean_floor (g : GrayImg) (r0 r1 c0 c1 : Nat) : Nat :=
  region_sum g r0 r1 c0 c1 / ((r1 - r0) * (c1 - c0))

/-- The `06d` format: left-pad the decimal digits with zeros to six. -/
def pad_zeros6 (n : Nat) : String :=
  let s := toString n
  String.mk (List.replicate (6 - s.length) '0') ++ s

/-- `generate_car_identifier`: crop the detection's bbox out of the
frame; an empty crop returns a fresh `uuid4`-derived id (`fresh` is the
per-call random hex).  Otherwise resize to 64×64 (`resize64` stands for
`cv2.resize`, a fixed deterministic function), convert to grayscale
(`toGray` for `cv2.cvtColor`), take the four quadrant pixel-mean floors
of the result's `shape`, and hash them as
`sum(int(region) * (i + 1))` into `car_%06d`. -/
def generate_car_identifier (resize64 : Img → Img) (toGray : Img → GrayImg)
    (fresh : String) (frame : Img) (d : Detection) : String :=
  let car_roi := crop_img frame d.x1 d.y1 d.x2 d.y2
  if car_roi.h = 0 ∨ car_roi.w = 0 then "car_" ++ fresh
  else
    let g := toGray (resize64 car_roi)
    let h := g.h
    let w := g.w
    let r1 := region_mean_floor g 0 (h / 2) 0 (w / 2)
    let r2 := region_mean_floor g 0 (h / 2) (w / 2) w
    let r3 := region_mean_floor g (h / 2) h 0 (w / 2)
    let r4 := region_mean_floor g (h / 2) h (w / 2) w
    let hash_value := r1 * 1 + r2 * 2 + r3 * 3 + r4 * 4
    "car_" ++ pad_zeros6 (hash_value % 1000000)

/-- C8 counterexample: on an empty crop (zero-area bbox over an empty
frame) the identifier embeds the per-call `uuid4` hex, so two
evaluations over the same pixel content yield different strings. -/
theorem claim_C8_counterexample :
    generate_car_identifier (fun i => i) (fun i => ⟨i.h, i.w, fun r c => (i.pix r c).1⟩)
        "aaaaaaaa" ⟨0, 0, fun _ _ => (0, 0, 0)⟩ ⟨0, 0, 0, 0, 1, 2⟩
      ≠ generate_car_identifier (fun i => i) (fun i => ⟨i.h, i.w, fun r c => (i.pix r c).1⟩)
        "bbbbbbbb" ⟨0, 0, fun _ _ => (0, 0, 0)⟩ ⟨0, 0, 0, 0, 1, 2⟩ := by
  decide

/-- C8 amended: the fingerprint is deterministic whenever the cropped
region is non-empty — it depends only on the pixel content and the fixed
resize/grayscale functions, never on the per-call randomness; only an
empty crop falls back to a fresh random id. -/
theorem claim_C8_fingerprint_deterministic (resize64 : Img → Img) (toGray : Img → GrayImg)
    (frame : Img) (d : Detection)
    (hh : (crop_img frame d.x1 d.y1 d.x2 d.y2).h ≠ 0)
    (hw : (crop_img frame d.x1 d.y1 d.x2 d.y2).w ≠ 0) :
    ∀ fresh₁ fresh₂ : String,
      generate_car_identifier resize64 toGray fresh₁ frame d
        = generate_car_identifier resize64 toGray fresh₂ frame d := by
  intro f1 f2
  have hcond : ¬ ((crop_img frame d.x1 d.y1 d.x2 d.y2).h = 0 ∨
      (crop_img frame d.x1 d.y1 d.x2 d.y2).w = 0) := by
    tauto
  simp [generate_car_identifier, hcond]

/-- C8 witness: a 1×1 crop of a constant frame yields the same
identifier under two different per-call random strings. -/
theorem claim_C8_fingerprint_deterministic_witness :
    ((crop_img ⟨1, 1, fun _ _ => (5, 5, 5)⟩ 0 0 1 1).h ≠ 0 ∧
      (crop_img ⟨1, 1, fun _ _ => (5, 5, 5)⟩ 0 0 1 1).w ≠ 0) ∧
    (∀ fresh₁ fresh₂ : String,
      generate_car_identifier (fun i => i) (fun i => ⟨i.h, i.w, fun r c => (i.pix r c).1⟩)
          fresh₁ ⟨1, 1, fun _ _ => (5, 5, 5)⟩ ⟨0, 0, 1, 1, 1, 2⟩
        = generate_car_identifier (fun i => i) (fun i => ⟨i.h, i.w, fun r c => (i.pix r c).1⟩)
          fresh₂ ⟨1, 1, fun _ _ => (5, 5, 5)⟩ ⟨0, 0, 1, 1, 1, 2⟩) :=
  ⟨⟨by decide, by decide⟩,
   claim_C8_fingerprint_deterministic (fun i => i)
     (fun i => ⟨i.h, i.w, fun r c => (i.pix r c).1⟩) ⟨1, 1, fun _ _ => (5, 5, 5)⟩
     ⟨0, 0, 1, 1, 1, 2⟩ (by decide) (by decide)⟩

end PiParking
